import Mathlib

/-!
Verification of the generated C corpus of the 1im_pl code-generation backend.
Each generated program under `src/examples/codegen` and `src/bench/codegen`
is shallowly embedded: C structs become Lean structures, `const char*` becomes
`Option String` (with `none` for NULL), `int32_t`/`int64_t` values become `Int`
(all values in these programs provably stay within range, so no wrap occurs),
the C `%` operator on signed integers becomes truncated remainder `Int.tmod`,
and `printf` output becomes a `List String` of emitted lines.
-/

/-- The tagged result struct of try_catch.c / try_propagate.c line 9:
`typedef struct { bool ok; int32_t value; const char* err; } err_i32_str;`.
The error pointer is modelled as `Option String`, `none` standing for NULL. -/
structure err_i32_str where
  ok : Bool
  value : Int
  err : Option String
deriving DecidableEq, Repr

/-- Constructor `err_i32_str_ok` (line 10 of both try programs):
`{ .ok = true, .value = value, .err = NULL }`. -/
def err_i32_str_ok (value : Int) : err_i32_str :=
  { ok := true, value := value, err := none }

/-- Constructor `err_i32_str_err` (line 11 of both try programs):
`{ .ok = false, .value = (int32_t){0}, .err = err }`. -/
def err_i32_str_err (e : Option String) : err_i32_str :=
  { ok := false, value := 0, err := e }

/-- `fail()` of try_propagate.c lines 16-18 (identical in try_catch.c):
`return err_i32_str_err("boom");`. -/
def fail : err_i32_str := err_i32_str_err (some "boom")

/-- `wrap()` of try_propagate.c lines 20-25, instrumented with a count of how
many times the success-path `.value` field is read. The propagate-form try
evaluates `fail()` once into `__try0`, and on `!__try0.ok` returns
`err_i32_str_err(__try0.err)` at once, skipping the remaining statements
(which would read `.value`). -/
def wrap : err_i32_str × Nat :=
  let t0 := fail
  if t0.ok = false then
    (err_i32_str_err t0.err, 0)
  else
    let x := t0.value
    (err_i32_str_ok x, 1)

/-- `main` of try_propagate.c lines 27-36: a handle-form try around `wrap()`.
Returns (output lines, exit status, total `.value`-field reads along the
whole chain). The handler prints the bound error string. -/
def try_propagate_main : List String × Int × Nat :=
  let r := wrap
  let t1 := r.1
  if t1.ok = false then
    ([t1.err.getD ""], 0, r.2)
  else
    ([], 0, r.2)

/-- `main` of try_catch.c lines 19-28: handle-form try directly around
`fail()`; the handler prints the error. -/
def try_catch_main : List String × Int :=
  let t0 := fail
  if t0.ok = false then
    ([t0.err.getD ""], 0)
  else
    ([], 0)

/-- Boolean form of the result invariant: the non-selected payload field holds
its fixed default — `err` is NULL when `ok`, `value` is 0 when not `ok`. -/
def resultInvB (r : err_i32_str) : Bool :=
  (!r.ok || (r.err == none)) && (r.ok || (r.value == 0))

/-- One line of `printf` output for an integer value, as in
`printf("%d\n", (int)x)` or the PRId64 variant. -/
def printIntLine (n : Int) : String := toString n

/-- The slice struct of function_arrays.c line 10 / for_array.c line 9:
`typedef struct { int32_t* data; size_t len; } slice_i32;`. The data pointer
is modelled as a base address into a flat memory `Nat → Int`. -/
structure slice_i32 where
  data : Nat
  len : Nat
deriving DecidableEq, Repr

/-- `id_slice` of function_arrays.c lines 24-26: `return nums;` — the struct
is returned unchanged, both fields intact. -/
def id_slice (nums : slice_i32) : slice_i32 := nums

/-- Indexed read through a slice: `s.data[i]` in a given memory. -/
def sliceGet (mem : Nat → Int) (s : slice_i32) (i : Nat) : Int :=
  mem (s.data + i)

/-- The array-return wrapper of function_arrays.c line 9:
`typedef struct { int32_t value[3]; } arrret_arr3_i32;`. -/
structure arrret_arr3_i32 where
  value : List Int
deriving DecidableEq, Repr

/-- `make3` of function_arrays.c lines 20-22:
`return (arrret_arr3_i32){ .value = {7, 8, 9} };` — a fresh aggregate is
built on every call, reading no outside state. -/
def make3 (_u : Unit) : arrret_arr3_i32 :=
  { value := [7, 8, 9] }

/-- `first` of function_arrays.c lines 16-18: `return nums[0];`. -/
def first (nums : List Int) : Int := nums.getD 0 0

/-- Caller-side scenario for array value semantics: main copies the result of
`make3()` out of the wrapper (the memcpy on line 30), mutates its private
copy in an arbitrary way `f`, then calls `make3()` again. -/
def make3_scenario (f : List Int → List Int) : List Int × List Int :=
  let arr := (make3 ()).value
  let mutated := f arr
  let second := (make3 ()).value
  (mutated, second)

/-- Memory of function_arrays main: `int32_t s_data[3] = {4, 5, 6};` placed at
base address 0. -/
def fa_mem : Nat → Int := fun a => [(4 : Int), 5, 6].getD a 0

/-- The slice `slice_i32 s = { s_data, 3 };` of function_arrays.c line 33. -/
def fa_s : slice_i32 := { data := 0, len := 3 }

/-- `main` of function_arrays.c lines 28-37: copy `make3().value` into `arr`,
print `first(arr)`, pass `s` through `id_slice`, print element 1 read
through the returned slice. -/
def function_arrays_main : List String :=
  let arr := (make3 ()).value
  let line1 := printIntLine (first arr)
  let s2 := id_slice fa_s
  let line2 := printIntLine (sliceGet fa_mem s2 1)
  [line1, line2]

/-- `int32_t nums[3] = {1, 2, 3};` of for_array.c line 13. -/
def for_arr_nums : List Int := [1, 2, 3]

/-- Memory of for_array main: `int32_t s_data[3] = {4, 5, 6};` at base 0. -/
def for_arr_mem : Nat → Int := fun a => [(4 : Int), 5, 6].getD a 0

/-- The slice `slice_i32 s = { s_data, 3 };` of for_array.c line 21. -/
def for_arr_s : slice_i32 := { data := 0, len := 3 }

/-- The generic slice-loop lowering of for_array.c lines 22-28: the slice
expression (modelled as a state transformer `ev` over an evaluation counter)
is evaluated exactly once into the temporary `__iter3`, then indices
`0 .. __iter3.len - 1` are visited in ascending order against that
temporary. Returns the printed lines and the final evaluation counter. -/
def lowerSliceFor (ev : Nat → slice_i32 × Nat) (c0 : Nat) (mem : Nat → Int) :
    List String × Nat :=
  let r := ev c0
  let iter := r.1
  ((List.range iter.len).map (fun i => printIntLine (sliceGet mem iter i)), r.2)

/-- `main` of for_array.c lines 12-30: the fixed-array loop over `nums`
(indices 0..2 ascending, element bound by value), then the slice loop via
the hoisted temporary. The slice expression `s` is instrumented to bump an
evaluation counter each time it is evaluated; the pair returned is
(all printed lines, final counter). -/
def for_array_main : List String × Nat :=
  let out1 := (List.range 3).map (fun i => printIntLine (for_arr_nums.getD i 0))
  let r := lowerSliceFor (fun c => (for_arr_s, c + 1)) 0 for_arr_mem
  (out1 ++ r.1, r.2)

/-- Index sequence visited by the fixed-array loop of for_array.c line 15. -/
def fixedArrayIterIdx : List Nat := List.range 3

/-- Index sequence visited by the slice loop of for_array.c line 24. -/
def sliceIterIdx : List Nat := List.range for_arr_s.len

/-- The C `%` operator on signed integers: remainder of truncated division. -/
def cMod (a b : Int) : Int := Int.tmod a b

/-- The while loop of gcd.c lines 13-17, fuel-bounded, collecting the divisor
of each executed `%` operation. `none` means the fuel ran out before the
guard `b != 0` failed; `some` exhibits termination, yielding the final
(a, b) and the list of executed divisors. -/
def gcdLoop : Nat → Int → Int → List Int → Option ((Int × Int) × List Int)
  | 0, _, _, _ => none
  | fuel + 1, a, b, ds =>
    if b = 0 then some ((a, b), ds)
    else gcdLoop fuel b (cMod a b) (ds ++ [b])

/-- `main` of gcd.c lines 10-20: a = 48, b = 18, Euclid loop, then
`printf("%d\n", (int)a)` and `return 0`. Result: (output lines, exit
status, executed modulo divisors), or `none` had the loop not terminated
within the fuel. -/
def gcd_main : Option (List String × Int × List Int) :=
  match gcdLoop 10 48 18 [] with
  | none => none
  | some ((a, _), ds) => some ([printIntLine a], 0, ds)

/-- The divisors of all executed `%` operations in the gcd program. -/
def gcd_divisors : List Int :=
  (gcdLoop 10 48 18 []).elim [] Prod.snd

/-- The while loop of prime.c lines 17-22 with n = 29, fuel-bounded,
collecting the divisor of each executed `%` operation. `i` starts at 2 and
only increases. -/
def primeLoop : Nat → Int → Bool → List Int → Option (Bool × List Int)
  | 0, _, _, _ => none
  | fuel + 1, i, isp, ds =>
    if i * i ≤ 29 then
      primeLoop fuel (i + 1) (if cMod 29 i = 0 then false else isp) (ds ++ [i])
    else some (isp, ds)

/-- `main` of prime.c lines 10-26: n = 29 is not < 2, so the else branch runs
the trial-division loop from i = 2; then the boolean is printed. -/
def prime_main : Option (List String × Int × List Int) :=
  match primeLoop 10 2 true [] with
  | none => none
  | some (isp, ds) => some ([if isp then "true" else "false"], 0, ds)

/-- The divisors of all executed `%` operations in the prime program. -/
def prime_divisors : List Int :=
  (primeLoop 10 2 true []).elim [] Prod.snd

/-- The inner while loop of a toyhash_parallel.c worker (lines 23-27 for
worker1): while i < inner, `h = (((h * 31) + i) + r) % mod; i = i + 1;`.
Fuel = number of remaining iterations (the loop runs exactly `inner` = 1000
times). Collects the divisor of each executed `%` operation. -/
def toyInner (m r : Int) : Nat → Int → Int → Int × List Int
  | 0, h, _ => (h, [])
  | k + 1, h, i =>
    let h2 := cMod (h * 31 + i + r) m
    let res := toyInner m r k h2 (i + 1)
    (res.1, m :: res.2)

/-- The outer for loop of a toyhash_parallel.c worker (line 22 for worker1):
for r from `start` = 0 while r < runs, run the inner loop. Fuel = number of
remaining runs (2500). -/
def toyRuns (m : Int) : Nat → Int → Int → Int × List Int
  | 0, _, h => (h, [])
  | k + 1, r, h =>
    let res1 := toyInner m r 1000 h 0
    let res2 := toyRuns m k (r + 1) res1.1
    (res2.1, res1.2 ++ res2.2)

/-- A toyhash_parallel.c worker body with seed `h0` (worker1..worker4 use
h0 = 7, 11, 13, 17): mod = 2147483647, runs = 2500, inner = 1000. Returns
the final hash and the divisors of all executed `%` operations. -/
def toyWorker (h0 : Int) : Int × List Int :=
  toyRuns 2147483647 2500 0 h0

/-- An emitted compilation unit, recorded by its textual preamble: the list
of included headers in order, plus whether the unit contains at least one
task-parallel block (a `pthread_create`/`pthread_join` sequence driven by
the `__1im_par_runner` trampoline). -/
structure CompilationUnit where
  name : String
  includes : List String
  hasTaskParallelBlock : Bool
deriving DecidableEq, Repr

/-- The seven-header preamble shared by most units (lines 1-7 of each file). -/
def fullPreamble : List String :=
  ["stdio.h", "stdint.h", "inttypes.h", "stdbool.h", "string.h",
   "stddef.h", "pthread.h"]

/-- for_array.c: full preamble, no task-parallel block. -/
def forArrayUnit : CompilationUnit :=
  { name := "for_array.c", includes := fullPreamble, hasTaskParallelBlock := false }

/-- function_arrays.c: full preamble, no task-parallel block. -/
def functionArraysUnit : CompilationUnit :=
  { name := "function_arrays.c", includes := fullPreamble, hasTaskParallelBlock := false }

/-- gcd.c: full preamble (pthread.h on line 7), no task-parallel block. -/
def gcdUnit : CompilationUnit :=
  { name := "gcd.c", includes := fullPreamble, hasTaskParallelBlock := false }

/-- parallel.c: full preamble, contains the two-entry task-parallel block. -/
def parallelUnit : CompilationUnit :=
  { name := "parallel.c", includes := fullPreamble, hasTaskParallelBlock := true }

/-- prime.c: full preamble, no task-parallel block. -/
def primeUnit : CompilationUnit :=
  { name := "prime.c", includes := fullPreamble, hasTaskParallelBlock := false }

/-- try_catch.c: full preamble, no task-parallel block. -/
def tryCatchUnit : CompilationUnit :=
  { name := "try_catch.c", includes := fullPreamble, hasTaskParallelBlock := false }

/-- try_propagate.c: full preamble, no task-parallel block. -/
def tryPropagateUnit : CompilationUnit :=
  { name := "try_propagate.c", includes := fullPreamble, hasTaskParallelBlock := false }

/-- types.c: only five headers (lines 1-5) — no stddef.h and no pthread.h —
and no task-parallel block. -/
def typesUnit : CompilationUnit :=
  { name := "types.c",
    includes := ["stdio.h", "stdint.h", "inttypes.h", "stdbool.h", "string.h"],
    hasTaskParallelBlock := false }

/-- parallel_block_bench.c: full preamble, contains the four-entry
task-parallel block. -/
def parallelBlockBenchUnit : CompilationUnit :=
  { name := "parallel_block_bench.c", includes := fullPreamble, hasTaskParallelBlock := true }

/-- parallel_block_seq_bench.c: full preamble (pthread.h on line 7), but the
four calls are made sequentially — no task-parallel block. -/
def parallelBlockSeqBenchUnit : CompilationUnit :=
  { name := "parallel_block_seq_bench.c", includes := fullPreamble, hasTaskParallelBlock := false }

/-- toyhash_parallel.c: full preamble, contains the four-entry task-parallel
block. -/
def toyhashParallelUnit : CompilationUnit :=
  { name := "toyhash_parallel.c", includes := fullPreamble, hasTaskParallelBlock := true }

/-- All eleven emitted compilation units of the corpus. -/
def allUnits : List CompilationUnit :=
  [forArrayUnit, functionArraysUnit, gcdUnit, parallelUnit, primeUnit,
   tryCatchUnit, tryPropagateUnit, typesUnit, parallelBlockBenchUnit,
   parallelBlockSeqBenchUnit, toyhashParallelUnit]

/-- The preamble property exactly as claimed: the five always-present
includes (formatted I/O = stdio.h, fixed-width integers = stdint.h,
boolean type = stdbool.h, memory/string utilities = string.h, size type =
stddef.h), and pthread.h present iff the unit has a task-parallel block. -/
def claimedPreamble (u : CompilationUnit) : Prop :=
  "stdio.h" ∈ u.includes ∧ "stdint.h" ∈ u.includes ∧
  "stdbool.h" ∈ u.includes ∧ "string.h" ∈ u.includes ∧
  "stddef.h" ∈ u.includes ∧
  ("pthread.h" ∈ u.includes ↔ u.hasTaskParallelBlock = true)

instance (u : CompilationUnit) : Decidable (claimedPreamble u) := by
  unfold claimedPreamble; infer_instance

/-- The preamble property as the corpus actually satisfies it: stdio.h,
stdint.h, inttypes.h, stdbool.h and string.h are always present; every
unit with a task-parallel block includes pthread.h; and every unit other
than types.c includes both stddef.h and pthread.h, while types.c includes
neither. -/
def amendedPreamble (u : CompilationUnit) : Prop :=
  "stdio.h" ∈ u.includes ∧ "stdint.h" ∈ u.includes ∧
  "inttypes.h" ∈ u.includes ∧ "stdbool.h" ∈ u.includes ∧
  "string.h" ∈ u.includes ∧
  (u.hasTaskParallelBlock = true → "pthread.h" ∈ u.includes) ∧
  (u.name ≠ "types.c" → ("stddef.h" ∈ u.includes ∧ "pthread.h" ∈ u.includes)) ∧
  (u.name = "types.c" → ("stddef.h" ∉ u.includes ∧ "pthread.h" ∉ u.includes))

instance (u : CompilationUnit) : Decidable (amendedPreamble u) := by
  unfold amendedPreamble; infer_instance

/-- `Interleave xs ys zs` holds when `zs` is one of the possible orderings of
the output lines of two threads that individually emit `xs` and `ys`: the
pthread run-time may schedule the two spawned tasks in any interleaving,
but each task emits its own lines in order. -/
inductive Interleave : List String → List String → List String → Prop where
  | nil : Interleave [] [] []
  | left {x : String} {xs ys zs : List String} :
      Interleave xs ys zs → Interleave (x :: xs) ys (x :: zs)
  | right {y : String} {xs ys zs : List String} :
      Interleave xs ys zs → Interleave xs (y :: ys) (y :: zs)

/-- Output of `show_a()` (parallel.c lines 14-16): the single line "100". -/
def show_a_out : List String := [printIntLine 100]

/-- Output of `show_b()` (parallel.c lines 18-20): the single line "200". -/
def show_b_out : List String := [printIntLine 200]

/-- `int32_t nums[4] = {1, 2, 3, 4};` of parallel.c line 23. -/
def parNums : List Int := [1, 2, 3, 4]

/-- Output of the data-parallel loop of parallel.c lines 24-30 (the omp hint
is advisory only; the loop runs sequentially over indices 0..3). -/
def parLoopOut : List String :=
  (List.range 4).map (fun i => printIntLine (parNums.getD i 0))

/-- The possible complete output traces of parallel.c main (lines 22-38):
the sequential loop output, then some interleaving of the two spawned
tasks. The join on lines 35-36 completes before `return 0`, so the whole
interleaving precedes the continuation — nothing of main follows it. -/
def parallelMainTrace (l : List String) : Prop :=
  ∃ t, Interleave show_a_out show_b_out t ∧ l = parLoopOut ++ t

/-- The summation for loop shared by work1..work4 of the two bench programs
(lines 17-23 of parallel_block_bench.c): for i from `start` while i < n,
`sum = sum + i`. Fuel counts the remaining iterations. -/
def workLoop : Nat → Int → Int → Int
  | 0, _, s => s
  | k + 1, i, s => workLoop k (i + 1) (s + i)

/-- The single line printed by each of work1..work4: the sum of
0..999999999. -/
def benchLine : String := printIntLine (workLoop 1000000000 0 0)

/-- Output of one work function. -/
def work_out : List String := [benchLine]

/-- Output of parallel_block_seq_bench.c main (lines 54-60): the four calls
run in order, each printing `benchLine`. -/
def seq_bench_out : List String := [benchLine, benchLine, benchLine, benchLine]

/-- The possible complete output traces of parallel_block_bench.c main
(lines 56-68): some interleaving of the four spawned work calls, joined
before `return 0`. -/
def parBenchTrace (l : List String) : Prop :=
  ∃ t2 t3, Interleave work_out work_out t2 ∧ Interleave t2 work_out t3 ∧
    Interleave t3 work_out l

/-- Claim C1: with main applying a handle-form try to `wrap()` and `wrap`
applying a propagate-form try to `fail()`, `wrap` returns a result carrying
the same error string "boom" (short-circuiting past its remaining
statements), no `.value` field is ever read along the chain (the read count
is 0), and the program output is exactly the single line "boom" with exit
status 0. -/
theorem try_propagate_c1 :
    wrap = (err_i32_str_err (some "boom"), 0) ∧
    try_propagate_main = (["boom"], 0, 0) := by
  constructor <;> rfl

/-- Claim C9: `err_i32_str_ok v` is exactly {ok = true, value = v, err = NULL}
and `err_i32_str_err e` is exactly {ok = false, value = 0, err = e}; hence
every constructed result satisfies the invariant that the non-selected
payload field holds its fixed default, including the results actually
produced in the try programs (`fail` and `wrap`). -/
theorem err_ctors_c9 :
    (∀ v, err_i32_str_ok v = { ok := true, value := v, err := none }) ∧
    (∀ e, err_i32_str_err e = { ok := false, value := 0, err := e }) ∧
    (∀ v, resultInvB (err_i32_str_ok v) = true) ∧
    (∀ e, resultInvB (err_i32_str_err e) = true) ∧
    resultInvB fail = true ∧ resultInvB wrap.1 = true := by
  refine ⟨fun v => rfl, fun e => rfl, fun v => rfl, fun e => rfl, rfl, rfl⟩

/-- Claim C4: `id_slice` returns a slice whose pointer and length equal the
inputs fields (so the result aliases the original storage, no copy), and in
function_arrays the element at index 1 read through the returned slice is 5,
printed as the second output line "5". -/
theorem id_slice_c4 :
    (∀ s, (id_slice s).data = s.data ∧ (id_slice s).len = s.len) ∧
    id_slice fa_s = fa_s ∧
    sliceGet fa_mem (id_slice fa_s) 1 = 5 ∧
    function_arrays_main.getD 1 "" = "5" := by
  refine ⟨fun s => ⟨rfl, rfl⟩, rfl, rfl, by decide⟩

/-- Claim C5: every call of `make3()` yields the wrapper {7,8,9}; the caller
unwraps it into its own array, so `first(arr)` is 7 and the first output
line of function_arrays is "7"; and however the caller mutates its copy, a
later call of `make3()` still yields {7,8,9}. -/
theorem make3_c5 :
    (∀ u, (make3 u).value = [7, 8, 9]) ∧
    first ((make3 ()).value) = 7 ∧
    function_arrays_main.getD 0 "" = "7" ∧
    (∀ f, (make3_scenario f).2 = [7, 8, 9]) := by
  refine ⟨fun u => rfl, rfl, by decide, fun f => rfl⟩

/-- Claim C6: the fixed-array loop of for_array visits indices 0..2 in
ascending order and the slice loop visits indices 0..len-1 in ascending
order against a temporary holding the slice expression evaluated exactly
once (final evaluation counter 1 for any slice expression); the program
prints exactly the lines 1,2,3,4,5,6 in that order. -/
theorem for_array_c6 :
    for_array_main = (["1", "2", "3", "4", "5", "6"], 1) ∧
    List.Sorted (· < ·) fixedArrayIterIdx ∧
    List.Sorted (· < ·) sliceIterIdx ∧
    (∀ ev c0 mem, (lowerSliceFor ev c0 mem).2 = (ev c0).2) := by
  refine ⟨by decide, by decide, by decide, fun ev c0 mem => rfl⟩

/-- Claim C7: the Euclid loop on a = 48, b = 18 terminates (within fuel 10),
the final bound value of a is 6, the program prints exactly "6" and exits
with status 0. The executed modulo divisors along the way were 18, 12, 6. -/
theorem gcd_c7 :
    gcd_main = some (["6"], 0, [18, 12, 6]) := by
  decide

/-- Every divisor collected by the inner toyhash loop is the modulus `m`
itself, so any predicate true of `m` holds of all of them. -/
theorem toyInner_all (m r : Int) (p : Int → Bool) (hm : p m = true) :
    ∀ k h i, ((toyInner m r k h i).2.all p) = true := by
  intro k
  induction k with
  | zero => intro h i; rfl
  | succ k ih =>
      intro h i
      simp only [toyInner, List.all_cons, hm, Bool.true_and]
      exact ih _ _

/-- Every divisor collected by the outer toyhash loop is the modulus `m`
itself, so any predicate true of `m` holds of all of them. -/
theorem toyRuns_all (m : Int) (p : Int → Bool) (hm : p m = true) :
    ∀ k r h, ((toyRuns m k r h).2.all p) = true := by
  intro k
  induction k with
  | zero => intro r h; rfl
  | succ k ih =>
      intro r h
      simp only [toyRuns, List.all_append, Bool.and_eq_true]
      exact ⟨toyInner_all m r p hm _ _ _, ih _ _⟩

/-- Claim C10: every executed modulo operation in the corpus has a nonzero
divisor: in gcd the divisors executed under the guard `b != 0` are 18, 12,
6; in prime the divisor i starts at 2 and only increases (here 2,3,4,5);
in toyhash every executed divisor is the constant 2147483647, for any
worker seed. -/
theorem mod_divisors_c10 :
    gcd_divisors.all (fun d => !(d == 0)) = true ∧
    prime_divisors.all (fun d => !(d == 0)) = true ∧
    ∀ h0 : Int, ((toyWorker h0).2.all (fun d => !(d == 0))) = true := by
  refine ⟨by decide, by decide, fun h0 => ?_⟩
  exact toyRuns_all 2147483647 (fun d => !(d == 0)) (by decide) 2500 0 h0

/-- Claim C3 counterexample: it is not the case that every emitted unit
satisfies the claimed preamble property — gcd.c includes pthread.h (line 7)
yet contains no task-parallel block, and types.c lacks stddef.h. -/
theorem preamble_c3_counterexample :
    ¬ (∀ u ∈ allUnits, claimedPreamble u) := by
  intro h
  have hg := h gcdUnit (by decide)
  have : gcdUnit.hasTaskParallelBlock = true := hg.2.2.2.2.2.mp (by decide)
  exact absurd this (by decide)

/-- Claim C3 (amended): every emitted unit includes stdio.h, stdint.h,
inttypes.h, stdbool.h and string.h; every unit containing a task-parallel
block includes pthread.h; and stddef.h and pthread.h appear in every unit
except types.c, which has neither — pthread.h is not limited to units with
a task-parallel block. -/
theorem preamble_c3 :
    ∀ u ∈ allUnits, amendedPreamble u := by
  decide

/-- Witness for the amended C3 theorem at the concrete unit gcd.c. -/
theorem preamble_c3_witness :
    amendedPreamble gcdUnit :=
  preamble_c3 gcdUnit (by decide)

/-- An interleaving of two singleton traces is one of the two orders. -/
theorem interleave_pair {a b : String} {t : List String}
    (h : Interleave [a] [b] t) : t = [a, b] ∨ t = [b, a] := by
  cases h with
  | left h1 =>
      cases h1 with
      | right h2 => cases h2; exact Or.inl rfl
  | right h1 =>
      cases h1 with
      | left h2 => cases h2; exact Or.inr rfl

/-- An interleaving has exactly the combined length of its two sources. -/
theorem interleave_length {xs ys zs : List String}
    (h : Interleave xs ys zs) : zs.length = xs.length + ys.length := by
  induction h with
  | nil => rfl
  | left h ih => simp only [List.length_cons, ih]; omega
  | right h ih => simp only [List.length_cons, ih]; omega

/-- Every element of an interleaving comes from one of its two sources. -/
theorem interleave_mem {xs ys zs : List String}
    (h : Interleave xs ys zs) : ∀ a ∈ zs, a ∈ xs ∨ a ∈ ys := by
  induction h with
  | nil => intro a ha; exact absurd ha (List.not_mem_nil a)
  | left h ih =>
      intro a ha
      rcases List.mem_cons.mp ha with rfl | h1
      · exact Or.inl (List.mem_cons_self _ _)
      · rcases ih a h1 with h2 | h2
        · exact Or.inl (List.mem_cons_of_mem _ h2)
        · exact Or.inr h2
  | right h ih =>
      intro a ha
      rcases List.mem_cons.mp ha with rfl | h1
      · exact Or.inr (List.mem_cons_self _ _)
      · rcases ih a h1 with h2 | h2
        · exact Or.inl h2
        · exact Or.inr (List.mem_cons_of_mem _ h2)

/-- If all lines of both sources equal `w`, so do all lines of any
interleaving of them. -/
theorem interleave_all_eq {w : String} {xs ys zs : List String}
    (h : Interleave xs ys zs) (hx : ∀ a ∈ xs, a = w) (hy : ∀ a ∈ ys, a = w) :
    ∀ a ∈ zs, a = w :=
  fun a ha => (interleave_mem h a ha).elim (hx a) (hy a)

/-- Claim C2: for any possible output trace of the parallel program, the
lines "100" and "200" each appear exactly once, and the trace decomposes
as the sequential prefix followed by an interleaving of the two task
outputs of length exactly 2 — both task effects occur before the
continuation (the return from main), and exactly two task effects occur. -/
theorem parallel_c2 :
    ∀ l, parallelMainTrace l →
      l.count "100" = 1 ∧ l.count "200" = 1 ∧
      ∃ t, Interleave show_a_out show_b_out t ∧ t.length = 2 ∧
        t.count "100" = 1 ∧ t.count "200" = 1 ∧ l = parLoopOut ++ t := by
  intro l hl
  obtain ⟨t, hI, rfl⟩ := hl
  have ht := interleave_pair hI
  refine ⟨?_, ?_, t, hI, ?_, ?_, ?_, rfl⟩ <;>
    rcases ht with h | h <;> subst h <;> decide

/-- Witness for C2 at the concrete trace where show_a runs first. -/
theorem parallel_c2_witness :
    (parLoopOut ++ [printIntLine 100, printIntLine 200]).count "100" = 1 ∧
    (parLoopOut ++ [printIntLine 100, printIntLine 200]).count "200" = 1 ∧
    ∃ t, Interleave show_a_out show_b_out t ∧ t.length = 2 ∧
      t.count "100" = 1 ∧ t.count "200" = 1 ∧
      parLoopOut ++ [printIntLine 100, printIntLine 200] = parLoopOut ++ t :=
  parallel_c2 (parLoopOut ++ [printIntLine 100, printIntLine 200])
    ⟨[printIntLine 100, printIntLine 200],
     Interleave.left (Interleave.right Interleave.nil), rfl⟩

/-- Twice the work loop result is a closed quadratic: the loop adds the `k`
consecutive integers starting at `i` to the accumulator `s`. -/
theorem workLoop_eq :
    ∀ (k : Nat) (i s : Int),
      2 * workLoop k i s = 2 * s + 2 * (k : Int) * i + (k : Int) * ((k : Int) - 1) := by
  intro k
  induction k with
  | zero => intro i s; simp [workLoop]
  | succ k ih =>
      intro i s
      rw [workLoop, ih]
      push_cast
      ring

/-- The line printed by each work function is the decimal rendering of the
sum of 0..999999999. -/
theorem benchLine_eq : benchLine = "499999999500000000" := by
  have h1 : workLoop 1000000000 0 0 = 499999999500000000 := by
    have h2 := workLoop_eq 1000000000 0 0
    norm_num at h2
    omega
  show printIntLine (workLoop 1000000000 0 0) = _
  rw [h1]
  decide

/-- Claim C8: every possible output trace of the thread-based bench program
equals the sequential bench output — in particular the two programs emit
the same multiset of lines, namely "499999999500000000" exactly four
times. -/
theorem bench_c8 :
    ∀ l, parBenchTrace l →
      l = seq_bench_out ∧
      (l : Multiset String) = (seq_bench_out : Multiset String) ∧
      seq_bench_out = List.replicate 4 "499999999500000000" := by
  intro l hl
  obtain ⟨t2, t3, h2, h3, h4⟩ := hl
  have hw : ∀ a ∈ work_out, a = benchLine := by
    intro a ha
    simpa [work_out] using ha
  have e2 : ∀ a ∈ t2, a = benchLine := interleave_all_eq h2 hw hw
  have e3 : ∀ a ∈ t3, a = benchLine := interleave_all_eq h3 e2 hw
  have e4 : ∀ a ∈ l, a = benchLine := interleave_all_eq h4 e3 hw
  have l2 := interleave_length h2
  have l3 := interleave_length h3
  have l4 := interleave_length h4
  have hwlen : work_out.length = 1 := rfl
  rw [hwlen] at l2 l3 l4
  have hlen : l.length = 4 := by omega
  have hrep : l = List.replicate 4 benchLine :=
    List.eq_replicate_iff.mpr ⟨hlen, e4⟩
  have hseq : seq_bench_out = List.replicate 4 benchLine := rfl
  refine ⟨hrep.trans hseq.symm, ?_, ?_⟩
  · rw [hrep.trans hseq.symm]
  · rw [hseq, benchLine_eq]

/-- Witness for C8 at the trace in which the four joins observe the spawn
order, which coincides with the sequential output. -/
theorem bench_c8_witness :
    seq_bench_out = seq_bench_out ∧
    (seq_bench_out : Multiset String) = (seq_bench_out : Multiset String) ∧
    seq_bench_out = List.replicate 4 "499999999500000000" :=
  bench_c8 seq_bench_out
    ⟨[benchLine, benchLine], [benchLine, benchLine, benchLine],
     Interleave.left (Interleave.right Interleave.nil),
     Interleave.left (Interleave.left (Interleave.right Interleave.nil)),
     Interleave.left (Interleave.left (Interleave.left
       (Interleave.right Interleave.nil)))⟩
